import Mathlib

/-!
Shallow embedding of the order execution gateway
(apps/execution-gateway: gateway.rs, retry_logic.rs, circuit_breaker.rs,
order_manager.rs; shared models from libs/rust-common), with theorems
settling the spec claims.

Conventions of the embedding:
* `f64` prices and quantities are modelled as `ℚ` with exact arithmetic.
* `u64`/`u32` values are `Nat`; where overflow can matter (the retry delay
  computation) the wrap is written explicitly as `% U64_MOD`, matching
  release-mode wrapping semantics.
* timestamps (`DateTime<Utc>`, `SystemTime` millis) are `Nat` milliseconds.
* `Uuid` values are `Nat`; `Uuid::parse_str` is passed in as a function
  `String → Option Nat`, and `Uuid::new_v4` results are passed in as
  parameters (they are random in the source).
* `HashMap` state is an association list with first-match lookup; `insert`
  is cons (shadowing), `get_mut` is an in-place update of the first match.
* nondeterministic inputs of the pipeline (the adapter response of each
  attempt, the breaker admission answer of each attempt, the drawn jitter,
  wall-clock readings) are explicit parameters.
-/

/-! ## Shared models (libs/rust-common) -/

/-- Order status enum of rust-common (trading_models/orders.rs). -/
inductive OrderStatus where
  | Pending
  | PartiallyFilled
  | Filled
  | Cancelled
  | Rejected
deriving DecidableEq, Repr

/-- TradingError of rust-common (errors.rs). The payloads of NetworkError and
SerializationError are the formatted messages of the wrapped errors. -/
inductive TradingError where
  | ExecutionError (message : String)
  | RiskLimitError (limit : String)
  | DataError (source : String)
  | NetworkError (message : String)
  | SerializationError (message : String)
deriving DecidableEq, Repr

/-- ExecutionResult of rust-common (trading_models/orders.rs). The random
`execution_id`, the wall-clock `submitted_at` and the unused `slippage` and
`partial_fills` fields are omitted: no claim reads them and they carry no
information written by the gateway (`partial_fills` on the result stays the
empty vector throughout gateway.rs). -/
structure ExecutionResult where
  decision_id : String
  order_id : String
  status : OrderStatus
  filled_quantity : ℚ
  average_price : Option ℚ
  filled_at : Option Nat
  commission : ℚ
  execution_time_ms : Option Nat
  error_message : Option String
  retry_count : Nat
deriving DecidableEq, Repr

/-- `ExecutionResult::new(decision_id, order_id)` of trading_models/orders.rs. -/
def ExecutionResult.new (decision_id order_id : String) : ExecutionResult :=
  { decision_id := decision_id
    order_id := order_id
    status := OrderStatus.Pending
    filled_quantity := 0
    average_price := none
    filled_at := none
    commission := 0
    execution_time_ms := none
    error_message := none
    retry_count := 0 }

-- Decidable equality of Except values, to evaluate concrete runs.
deriving instance DecidableEq for Except

/-! ## Association-list model of HashMap mutation -/

/-- `HashMap::get_mut` followed by an in-place update: rewrite the first
entry with the given key, leave the map unchanged when the key is absent. -/
def updateAt {κ α : Type} [DecidableEq κ] (k : κ) (f : α → α) :
    List (κ × α) → List (κ × α)
  | [] => []
  | (k2, v) :: rest =>
      if k2 = k then (k2, f v) :: rest else (k2, v) :: updateAt k f rest

/-! ## Order lifecycle manager (order_manager.rs) -/

/-- Order lifecycle states (order_manager.rs). -/
inductive OrderLifecycleState where
  | Created
  | Validated
  | Submitted
  | Acknowledged
  | PartiallyFilled
  | Filled
  | Cancelled
  | Rejected
  | Expired
  | Failed
deriving DecidableEq, Repr

/-- StateTransition of order_manager.rs. The opaque `metadata` map
(String → serde_json::Value, unread by the core logic) is omitted. -/
structure StateTransition where
  from_state : OrderLifecycleState
  to_state : OrderLifecycleState
  timestamp : Nat
  reason : String
deriving DecidableEq, Repr

/-- OrderLifecycle of order_manager.rs (metadata map omitted as above). -/
structure OrderLifecycle where
  order_id : String
  client_id : Nat
  symbol : String
  state : OrderLifecycleState
  state_history : List StateTransition
  created_at : Nat
  updated_at : Nat
  expires_at : Option Nat
deriving DecidableEq, Repr

namespace OrderManager

/-- The `valid_transitions` table inside
`OrderManager::validate_state_transition` (order_manager.rs). -/
def valid_transitions : OrderLifecycleState → List OrderLifecycleState
  | .Created => [.Validated, .Rejected, .Failed]
  | .Validated => [.Submitted, .Rejected, .Failed]
  | .Submitted => [.Acknowledged, .Rejected, .Failed, .Expired]
  | .Acknowledged => [.PartiallyFilled, .Filled, .Cancelled, .Rejected, .Failed, .Expired]
  | .PartiallyFilled => [.Filled, .Cancelled, .Failed, .Expired]
  | .Filled | .Cancelled | .Rejected | .Expired | .Failed => []

/-- `OrderManager::validate_state_transition`. The source formats the two
states into the error message with Debug formatting; the embedding keeps a
fixed message, the error constructor is the same. -/
def validate_state_transition (from_state to_state : OrderLifecycleState) :
    Except TradingError Unit :=
  if to_state ∈ valid_transitions from_state then Except.ok ()
  else Except.error (TradingError.ExecutionError "Invalid state transition")

/-- `OrderManager::is_terminal_state`. -/
def is_terminal_state : OrderLifecycleState → Bool
  | .Filled | .Cancelled | .Rejected | .Expired | .Failed => true
  | _ => false

/-- `OrderManager::transition_state`: look the order up, validate the
transition, and only then append to the history and update state and
`updated_at`; on any error the map is returned unchanged (the source
propagates the error with `?` before any mutation). -/
def transition_state (orders : List (String × OrderLifecycle)) (order_id : String)
    (new_state : OrderLifecycleState) (reason : String) (now : Nat) :
    Except TradingError Unit × List (String × OrderLifecycle) :=
  match orders.lookup order_id with
  | none => (Except.error (TradingError.ExecutionError "Order not found"), orders)
  | some lifecycle =>
    match validate_state_transition lifecycle.state new_state with
    | .error e => (Except.error e, orders)
    | .ok _ =>
      let transition : StateTransition :=
        { from_state := lifecycle.state
          to_state := new_state
          timestamp := now
          reason := reason }
      let updated : OrderLifecycle :=
        { lifecycle with
            state_history := lifecycle.state_history ++ [transition]
            state := new_state
            updated_at := now }
      (Except.ok (), updateAt order_id (fun _ => updated) orders)

end OrderManager

/-- The legal-transition table of spec section 4.4, written from the words of
the spec, for comparison with the table the code implements. -/
def specLegalTransition : OrderLifecycleState → OrderLifecycleState → Bool
  | .Created, .Validated | .Created, .Rejected | .Created, .Failed => true
  | .Validated, .Submitted | .Validated, .Rejected | .Validated, .Failed => true
  | .Submitted, .Acknowledged | .Submitted, .Rejected
  | .Submitted, .Failed | .Submitted, .Expired => true
  | .Acknowledged, .PartiallyFilled | .Acknowledged, .Filled
  | .Acknowledged, .Cancelled | .Acknowledged, .Rejected
  | .Acknowledged, .Failed | .Acknowledged, .Expired => true
  | .PartiallyFilled, .Filled | .PartiallyFilled, .Cancelled
  | .PartiallyFilled, .Failed | .PartiallyFilled, .Expired => true
  | _, _ => false

/-- C5: a lifecycle in any terminal state never transitions: for every target
state `transition_state` returns the invalid-transition ExecutionError and
leaves the whole lifecycle map (state, state_history, updated_at included)
unchanged; and `validate_state_transition` accepts exactly the legal
transitions of spec section 4.4. -/
theorem terminal_states_never_transition
    (orders : List (String × OrderLifecycle)) (order_id : String)
    (lc : OrderLifecycle) (hlk : orders.lookup order_id = some lc)
    (hterm : OrderManager.is_terminal_state lc.state = true)
    (X : OrderLifecycleState) (reason : String) (now : Nat) :
    OrderManager.transition_state orders order_id X reason now
      = (Except.error (TradingError.ExecutionError "Invalid state transition"), orders) ∧
    (∀ f t, OrderManager.validate_state_transition f t = Except.ok ()
      ↔ specLegalTransition f t = true) := by
  constructor
  · have hvt : OrderManager.valid_transitions lc.state = [] := by
      cases h : lc.state <;> simp [OrderManager.is_terminal_state, h] at hterm ⊢ <;>
        simp [OrderManager.valid_transitions]
    simp [OrderManager.transition_state, hlk, OrderManager.validate_state_transition, hvt]
  · intro f t
    cases f <;> cases t <;>
      simp [OrderManager.validate_state_transition, OrderManager.valid_transitions,
        specLegalTransition]

/-- Witness for the terminal-state theorem at a concrete one-order map in
state Filled, target Created. -/
theorem terminal_states_never_transition_witness :
    OrderManager.transition_state
        [("oid", { order_id := "oid", client_id := 0, symbol := "BTCUSD",
                   state := OrderLifecycleState.Filled, state_history := [],
                   created_at := 0, updated_at := 0, expires_at := none })]
        "oid" OrderLifecycleState.Created "r" 7
      = (Except.error (TradingError.ExecutionError "Invalid state transition"),
         [("oid", { order_id := "oid", client_id := 0, symbol := "BTCUSD",
                    state := OrderLifecycleState.Filled, state_history := [],
                    created_at := 0, updated_at := 0, expires_at := none })]) ∧
    (∀ f t, OrderManager.validate_state_transition f t = Except.ok ()
      ↔ specLegalTransition f t = true) :=
  terminal_states_never_transition
    [("oid", { order_id := "oid", client_id := 0, symbol := "BTCUSD",
               state := OrderLifecycleState.Filled, state_history := [],
               created_at := 0, updated_at := 0, expires_at := none })]
    "oid"
    { order_id := "oid", client_id := 0, symbol := "BTCUSD",
      state := OrderLifecycleState.Filled, state_history := [],
      created_at := 0, updated_at := 0, expires_at := none }
    (by decide) (by decide) OrderLifecycleState.Created "r" 7

/-! ## Retry logic (retry_logic.rs) -/

/-- Modulus of u64 arithmetic; release-mode Rust wraps at this bound. -/
def U64_MOD : Nat := 2 ^ 64

/-- Prefix test on character lists (helper for the substring test below). -/
def charListStartsWith : List Char → List Char → Bool
  | _, [] => true
  | [], _ :: _ => false
  | c :: cs, p :: ps => c == p && charListStartsWith cs ps

/-- Substring search on character lists. -/
def charListContainsSub (pat : List Char) : List Char → Bool
  | [] => pat.isEmpty
  | c :: rest => charListStartsWith (c :: rest) pat || charListContainsSub pat rest

/-- Model of str::contains of Rust for plain string patterns. -/
def strContains (hay pat : String) : Bool :=
  charListContainsSub pat.toList hay.toList

/-- RetryLogic of retry_logic.rs. -/
structure RetryLogic where
  max_retries : Nat
  base_delay_ms : Nat
  max_delay_ms : Nat
deriving DecidableEq, Repr

/-- `RetryLogic::calculate_delay`. The drawn jitter (`rng.gen_range(0..=jitter_range*2)`
in the source) is an explicit parameter; every possible draw satisfies
`jitter ≤ 2 * jitter_range` where `jitter_range = capped_delay / 4` (inlined
below). `2_u64.pow` and the multiplication wrap at `U64_MOD` as in release
builds; `(b * (2^k % M)) % M = (b * 2^k) % M`, so one wrap suffices. The final
addition also wraps. -/
def RetryLogic.calculate_delay (r : RetryLogic) (attempt jitter : Nat) : Nat :=
  if attempt = 0 then 0
  else
    let capped_delay := min (r.base_delay_ms * 2 ^ (attempt - 1) % U64_MOD) r.max_delay_ms
    if capped_delay / 4 ≤ capped_delay then
      (capped_delay - capped_delay / 4 + jitter) % U64_MOD
    else
      (capped_delay + jitter) % U64_MOD

/-- `RetryLogic::should_retry`. -/
def RetryLogic.should_retry (r : RetryLogic) (attempt : Nat) : Bool :=
  attempt < r.max_retries

/-- RetryPolicy of retry_logic.rs. -/
inductive RetryPolicy where
  | Immediate
  | ExponentialBackoff
  | NoRetry
deriving DecidableEq, Repr

/-- `determine_retry_policy` of retry_logic.rs. -/
def determine_retry_policy : TradingError → RetryPolicy
  | .NetworkError _ => RetryPolicy.ExponentialBackoff
  | .ExecutionError message =>
      if strContains message "timeout" || strContains message "rate limit" ||
          strContains message "temporary" || strContains message "service unavailable" then
        RetryPolicy.ExponentialBackoff
      else if strContains message "insufficient funds" ||
          strContains message "invalid order" || strContains message "market closed" then
        RetryPolicy.NoRetry
      else
        RetryPolicy.ExponentialBackoff
  | .RiskLimitError _ => RetryPolicy.NoRetry
  | .DataError _ => RetryPolicy.ExponentialBackoff
  | .SerializationError _ => RetryPolicy.NoRetry

/-- C8 counterexample: with base = 2^63 and max = 1000 the u64 product
base * 2^(k-1) wraps to 0 at attempt k = 2, so the computed delay is 0,
below the claimed lower bound 0.75 * min(base * 2^(k-1), max) = 750. -/
theorem retry_delay_overflow_counterexample :
    RetryLogic.calculate_delay ⟨3, 2 ^ 63, 1000⟩ 2 0 = 0 ∧
    ¬ ((3 / 4 : ℚ) * ((min ((2 ^ 63) * 2 ^ (2 - 1)) 1000 : Nat) : ℚ)
        ≤ ((RetryLogic.calculate_delay ⟨3, 2 ^ 63, 1000⟩ 2 0 : Nat) : ℚ)) := by
  have h0 : RetryLogic.calculate_delay ⟨3, 2 ^ 63, 1000⟩ 2 0 = 0 := by
    norm_num [RetryLogic.calculate_delay, U64_MOD]
  refine ⟨h0, ?_⟩
  rw [h0]
  norm_num

/-- C8 amended: delay(0) = 0, and for every attempt k ≥ 1, provided the u64
arithmetic does not overflow (base * 2^(k-1) < 2^64 and nominal + nominal/4
< 2^64 for nominal = min(base * 2^(k-1), max)), every possible jitter draw
gives a delay in [0.75 * nominal, 1.25 * nominal]. -/
theorem retry_delay_jitter_bounds (r : RetryLogic) (attempt jitter : Nat)
    (hov : r.base_delay_ms * 2 ^ (attempt - 1) < U64_MOD)
    (hcap : min (r.base_delay_ms * 2 ^ (attempt - 1)) r.max_delay_ms
        + min (r.base_delay_ms * 2 ^ (attempt - 1)) r.max_delay_ms / 4 < U64_MOD)
    (hjit : jitter ≤ 2 * (min (r.base_delay_ms * 2 ^ (attempt - 1)) r.max_delay_ms / 4)) :
    r.calculate_delay 0 jitter = 0 ∧
    (1 ≤ attempt →
      (3 / 4 : ℚ) * ((min (r.base_delay_ms * 2 ^ (attempt - 1)) r.max_delay_ms : Nat) : ℚ)
          ≤ ((r.calculate_delay attempt jitter : Nat) : ℚ) ∧
      ((r.calculate_delay attempt jitter : Nat) : ℚ)
          ≤ (5 / 4 : ℚ) * ((min (r.base_delay_ms * 2 ^ (attempt - 1)) r.max_delay_ms : Nat) : ℚ)) := by
  refine ⟨by simp [RetryLogic.calculate_delay], fun h1 => ?_⟩
  have hne : attempt ≠ 0 := by omega
  have hmod : r.base_delay_ms * 2 ^ (attempt - 1) % U64_MOD
      = r.base_delay_ms * 2 ^ (attempt - 1) := Nat.mod_eq_of_lt hov
  set e := r.base_delay_ms * 2 ^ (attempt - 1) with he
  set c := min e r.max_delay_ms with hc
  have hcond : c / 4 ≤ c := Nat.div_le_self c 4
  have hlt : c - c / 4 + jitter < U64_MOD := by omega
  have hval : r.calculate_delay attempt jitter = c - c / 4 + jitter := by
    simp only [RetryLogic.calculate_delay, if_neg hne, hmod]
    rw [← hc, if_pos hcond]
    exact Nat.mod_eq_of_lt hlt
  have h3 : 3 * c ≤ 4 * (c - c / 4 + jitter) := by omega
  have h5 : 4 * (c - c / 4 + jitter) ≤ 5 * c := by omega
  rw [hval]
  have h3q : (3 : ℚ) * (c : ℚ) ≤ 4 * ((c - c / 4 + jitter : Nat) : ℚ) := by
    exact_mod_cast h3
  have h5q : (4 : ℚ) * ((c - c / 4 + jitter : Nat) : ℚ) ≤ 5 * (c : ℚ) := by
    exact_mod_cast h5
  constructor
  · linarith
  · linarith

/-- Witness for the jitter-bound theorem at base = 100, max = 5000,
attempt = 1, jitter = 0 (the computed delay is 75 = 0.75 * 100). -/
theorem retry_delay_jitter_bounds_witness :
    (3 / 4 : ℚ) * ((min ((100 : Nat) * 2 ^ (1 - 1)) 5000 : Nat) : ℚ)
        ≤ (((RetryLogic.calculate_delay ⟨3, 100, 5000⟩ 1 0 : Nat)) : ℚ) ∧
    (((RetryLogic.calculate_delay ⟨3, 100, 5000⟩ 1 0 : Nat)) : ℚ)
        ≤ (5 / 4 : ℚ) * ((min ((100 : Nat) * 2 ^ (1 - 1)) 5000 : Nat) : ℚ) :=
  (retry_delay_jitter_bounds ⟨3, 100, 5000⟩ 1 0
    (by norm_num [U64_MOD]) (by norm_num [U64_MOD]) (by norm_num)).2 (by norm_num)


/-! ## Circuit breaker (circuit_breaker.rs) -/

/-- Circuit breaker states (circuit_breaker.rs). -/
inductive CircuitBreakerState where
  | Closed
  | Open
  | HalfOpen
deriving DecidableEq, Repr

/-- CircuitBreaker of circuit_breaker.rs: configuration, atomic failure
counter, atomic last-failure timestamp (ms), and the mode behind a lock. -/
structure CircuitBreaker where
  failure_threshold : Nat
  recovery_timeout_ms : Nat
  failure_count : Nat
  last_failure_time : Nat
  state : CircuitBreakerState
deriving DecidableEq, Repr

/-- `CircuitBreaker::new`. -/
def CircuitBreaker.new (failure_threshold recovery_timeout_ms : Nat) : CircuitBreaker :=
  { failure_threshold := failure_threshold
    recovery_timeout_ms := recovery_timeout_ms
    failure_count := 0
    last_failure_time := 0
    state := CircuitBreakerState.Closed }

/-- `CircuitBreaker::is_open`, with the wall clock passed in. Returns the
breaker after the check (Open transitions to HalfOpen once strictly more than
`recovery_timeout_ms` elapsed since the last failure) and the boolean the
source returns (true = blocking / deny). -/
def CircuitBreaker.is_open (cb : CircuitBreaker) (now : Nat) :
    CircuitBreaker × Bool :=
  match cb.state with
  | .Open =>
      if now - cb.last_failure_time > cb.recovery_timeout_ms then
        ({ cb with state := CircuitBreakerState.HalfOpen }, false)
      else
        (cb, true)
  | .HalfOpen => (cb, false)
  | .Closed => (cb, false)

/-- `CircuitBreaker::record_failure`: increment the counter, stamp the
failure time, then update the mode. -/
def CircuitBreaker.record_failure (cb : CircuitBreaker) (now : Nat) : CircuitBreaker :=
  let failure_count := cb.failure_count + 1
  let cb2 := { cb with failure_count := failure_count, last_failure_time := now }
  match cb2.state with
  | .Closed =>
      if failure_count ≥ cb2.failure_threshold then
        { cb2 with state := CircuitBreakerState.Open }
      else
        cb2
  | .HalfOpen => { cb2 with state := CircuitBreakerState.Open }
  | .Open => cb2

/-- `CircuitBreaker::record_success`. -/
def CircuitBreaker.record_success (cb : CircuitBreaker) : CircuitBreaker :=
  match cb.state with
  | .HalfOpen => { cb with state := CircuitBreakerState.Closed, failure_count := 0 }
  | .Closed => { cb with failure_count := 0 }
  | .Open => { cb with state := CircuitBreakerState.Closed, failure_count := 0 }

/-- A run of consecutive `record_failure` calls at the given timestamps. -/
def CircuitBreaker.record_failures (cb : CircuitBreaker) (ts : List Nat) : CircuitBreaker :=
  ts.foldl (fun c t => c.record_failure t) cb

/-- Helper: the full effect of a run of consecutive failures on a breaker
whose mode agrees with its counter. -/
theorem record_failures_run (ts : List Nat) :
    ∀ ft rt fc lf : Nat, 1 ≤ ft →
    CircuitBreaker.record_failures
        ⟨ft, rt, fc, lf, if ft ≤ fc then CircuitBreakerState.Open else CircuitBreakerState.Closed⟩ ts
      = ⟨ft, rt, fc + ts.length, ts.getLastD lf,
          if ft ≤ fc + ts.length then CircuitBreakerState.Open else CircuitBreakerState.Closed⟩ := by
  induction ts with
  | nil =>
      intro ft rt fc lf hth
      simp [CircuitBreaker.record_failures]
  | cons t rest ih =>
      intro ft rt fc lf hth
      have hstep :
          CircuitBreaker.record_failure
              ⟨ft, rt, fc, lf, if ft ≤ fc then CircuitBreakerState.Open else CircuitBreakerState.Closed⟩ t
            = ⟨ft, rt, fc + 1, t,
                if ft ≤ fc + 1 then CircuitBreakerState.Open else CircuitBreakerState.Closed⟩ := by
        by_cases hc : ft ≤ fc
        · have hc1 : ft ≤ fc + 1 := Nat.le_succ_of_le hc
          simp [CircuitBreaker.record_failure, if_pos hc, if_pos hc1]
        · by_cases hc1 : ft ≤ fc + 1
          · simp [CircuitBreaker.record_failure, if_neg hc, ge_iff_le, if_pos hc1]
          · simp [CircuitBreaker.record_failure, if_neg hc, ge_iff_le, if_neg hc1]
      have hrec :
          CircuitBreaker.record_failures
              ⟨ft, rt, fc, lf, if ft ≤ fc then CircuitBreakerState.Open else CircuitBreakerState.Closed⟩
              (t :: rest)
            = CircuitBreaker.record_failures
                ⟨ft, rt, fc + 1, t,
                  if ft ≤ fc + 1 then CircuitBreakerState.Open else CircuitBreakerState.Closed⟩ rest := by
        simp [CircuitBreaker.record_failures, hstep]
      rw [hrec, ih ft rt (fc + 1) t hth]
      have hlast : (t :: rest).getLastD lf = rest.getLastD t := by
        cases rest with
        | nil => simp
        | cons a l => simp [List.getLastD_cons, List.getLast?_cons]
      have hlen : fc + 1 + rest.length = fc + (rest.length + 1) := by omega
      simp only [List.length_cons, hlen, hlast]

/-- C4 counterexample: threshold 1, timeout 100 ms, one failure at t = 0
opens the breaker; the admission check exactly at t = 100 (= lastFailureAt +
recoveryTimeout) still denies and leaves the breaker Open, because the source
requires now - last_failure > recovery_timeout strictly, while the claim says
this first check at or after the deadline transitions to HalfOpen and allows. -/
theorem breaker_boundary_counterexample :
    (((CircuitBreaker.new 1 100).record_failure 0).is_open 100).2 = true ∧
    (((CircuitBreaker.new 1 100).record_failure 0).is_open 100).1.state
      = CircuitBreakerState.Open := by
  constructor <;> rfl

/-- C4 amended: once the failure count reaches the threshold under
consecutive failures the breaker is Open, every admission check up to and
including lastFailureAt + recoveryTimeout denies and leaves the breaker
unchanged, and an admission check strictly after lastFailureAt +
recoveryTimeout transitions the breaker to HalfOpen and allows the request. -/
theorem breaker_opens_and_recovers_strictly_after_timeout
    (threshold timeout : Nat) (hth : 1 ≤ threshold)
    (ts : List Nat) (hlen : threshold ≤ ts.length) (now : Nat) :
    ((CircuitBreaker.new threshold timeout).record_failures ts).state
      = CircuitBreakerState.Open ∧
    (now ≤ ts.getLastD 0 + timeout →
      (((CircuitBreaker.new threshold timeout).record_failures ts).is_open now).2 = true ∧
      (((CircuitBreaker.new threshold timeout).record_failures ts).is_open now).1
        = (CircuitBreaker.new threshold timeout).record_failures ts) ∧
    (ts.getLastD 0 + timeout < now →
      (((CircuitBreaker.new threshold timeout).record_failures ts).is_open now).2 = false ∧
      (((CircuitBreaker.new threshold timeout).record_failures ts).is_open now).1.state
        = CircuitBreakerState.HalfOpen) := by
  have hnew : CircuitBreaker.new threshold timeout
      = ⟨threshold, timeout, 0, 0,
          if threshold ≤ 0 then CircuitBreakerState.Open else CircuitBreakerState.Closed⟩ := by
    rw [if_neg (by omega : ¬ threshold ≤ 0)]
    rfl
  have hrun := record_failures_run ts threshold timeout 0 0 hth
  rw [← hnew] at hrun
  rw [if_pos (by omega : threshold ≤ 0 + ts.length)] at hrun
  refine ⟨by rw [hrun], fun hle => ?_, fun hgt => ?_⟩
  · rw [hrun]
    simp only [CircuitBreaker.is_open]
    rw [if_neg (by omega : ¬ now - ts.getLastD 0 > timeout)]
    exact ⟨rfl, rfl⟩
  · rw [hrun]
    simp only [CircuitBreaker.is_open]
    rw [if_pos (by omega : now - ts.getLastD 0 > timeout)]
    exact ⟨rfl, rfl⟩

/-- Witness: threshold 2, timeout 50 ms, failures at t = 3 and t = 7; the
breaker is Open and the deny/allow split sits at t = 57 exclusive. -/
theorem breaker_opens_and_recovers_witness :
    ((CircuitBreaker.new 2 50).record_failures [3, 7]).state
      = CircuitBreakerState.Open ∧
    ((57 : Nat) ≤ [3, 7].getLastD 0 + 50 →
      (((CircuitBreaker.new 2 50).record_failures [3, 7]).is_open 57).2 = true ∧
      (((CircuitBreaker.new 2 50).record_failures [3, 7]).is_open 57).1
        = (CircuitBreaker.new 2 50).record_failures [3, 7]) ∧
    ([3, 7].getLastD 0 + 50 < (57 : Nat) →
      (((CircuitBreaker.new 2 50).record_failures [3, 7]).is_open 57).2 = false ∧
      (((CircuitBreaker.new 2 50).record_failures [3, 7]).is_open 57).1.state
        = CircuitBreakerState.HalfOpen) :=
  breaker_opens_and_recovers_strictly_after_timeout 2 50 (by decide) [3, 7] (by decide) 57

/-! ## Execution gateway (gateway.rs) -/

/-- OrderExecutionStatus of gateway.rs. -/
inductive OrderExecutionStatus where
  | Pending
  | Submitted
  | PartiallyFilled
  | Filled
  | Cancelled
  | Rejected
  | Failed
deriving DecidableEq, Repr

/-- PartialFill of gateway.rs. -/
structure PartialFill where
  fill_id : String
  quantity : ℚ
  price : ℚ
  timestamp : Nat
  commission : ℚ
deriving DecidableEq, Repr

/-- One entry of the partial_fills payload of an adapter result: a JSON map
(HashMap<String, serde_json::Value>) from which `handle_partial_fills` reads
four optional fields. A missing or mistyped field reads as `none`. -/
structure FillData where
  fill_id : Option String
  quantity : Option ℚ
  price : Option ℚ
  commission : Option ℚ
deriving DecidableEq, Repr

/-- OrderExecution of gateway.rs (the active-order record keyed by client id). -/
structure OrderExecution where
  order_id : String
  client_id : Nat
  exchange : String
  status : OrderExecutionStatus
  created_at : Nat
  updated_at : Nat
  retry_count : Nat
  partial_fills : List PartialFill
  total_filled : ℚ
  average_price : Option ℚ
deriving DecidableEq, Repr

/-- GatewayConfig of gateway.rs. -/
structure GatewayConfig where
  max_retries : Nat
  base_retry_delay_ms : Nat
  max_retry_delay_ms : Nat
  circuit_breaker_failure_threshold : Nat
  circuit_breaker_recovery_timeout_ms : Nat
  order_timeout_ms : Nat
  max_concurrent_orders : Nat
  enable_partial_fills : Bool
deriving DecidableEq, Repr

/-- `GatewayConfig::default`. -/
def GatewayConfig.default : GatewayConfig :=
  { max_retries := 3
    base_retry_delay_ms := 100
    max_retry_delay_ms := 5000
    circuit_breaker_failure_threshold := 5
    circuit_breaker_recovery_timeout_ms := 60000
    order_timeout_ms := 30000
    max_concurrent_orders := 100
    enable_partial_fills := true }

/-- The success payload of `adapter.place_order`: the fields
`execute_single_order` copies from `adapter_result`, plus the reported
partial-fill list. -/
structure AdapterResponse where
  status : OrderStatus
  filled_quantity : ℚ
  average_price : Option ℚ
  commission : ℚ
  filled_at : Option Nat
  partial_fills : List FillData
deriving DecidableEq, Repr

/-- The mutable maps of ExecutionGateway: active_orders (client id →
OrderExecution) and order_deduplication (client id → order id). -/
structure GatewayState where
  active_orders : List (Nat × OrderExecution)
  order_deduplication : List (Nat × String)
deriving DecidableEq, Repr

/-- Sum of the quantities of a fill list
(`partial_fills.iter().map(|f| f.quantity).sum()` in the source). -/
def sumQuantities (fills : List PartialFill) : ℚ :=
  (fills.map fun f => f.quantity).sum

/-- Sum of quantity * price over a fill list
(`partial_fills.iter().map(|f| f.quantity * f.price).sum()` in the source). -/
def sumWeighted (fills : List PartialFill) : ℚ :=
  (fills.map fun f => f.quantity * f.price).sum

/-- Construction of a PartialFill from one JSON fill entry in
`handle_partial_fills` (`unwrap_or` defaults: "unknown", 0.0, 0.0, 0.0;
timestamp is the wall clock). -/
def mkPartialFill (fd : FillData) (now : Nat) : PartialFill :=
  { fill_id := fd.fill_id.getD "unknown"
    quantity := fd.quantity.getD 0
    price := fd.price.getD 0
    timestamp := now
    commission := fd.commission.getD 0 }

/-- Body of the per-fill loop of `ExecutionGateway::handle_partial_fills`:
push the fill, add its quantity to total_filled, then update average_price —
when average_price was None it becomes the raw fill price, otherwise it is
recomputed as weighted_sum / total_quantity over the whole updated list. -/
def OrderExecution.applyFill (oe : OrderExecution) (fd : FillData) (now : Nat) :
    OrderExecution :=
  let pf := mkPartialFill fd now
  let fills := oe.partial_fills ++ [pf]
  let avg :=
    match oe.average_price with
    | none => some pf.price
    | some _ => some (sumWeighted fills / sumQuantities fills)
  { oe with
      partial_fills := fills
      total_filled := oe.total_filled + pf.quantity
      average_price := avg }

/-- `ExecutionGateway::handle_partial_fills` restricted to one order record:
the fold of `applyFill` over the reported fills in order, followed by the
`updated_at` stamp the source writes after the loop. -/
def OrderExecution.applyFills (oe : OrderExecution) (fds : List FillData) (now : Nat) :
    OrderExecution :=
  { fds.foldl (fun o fd => o.applyFill fd now) oe with updated_at := now }

/-- `ExecutionGateway::handle_partial_fills`: update the record of
`client_id` in active_orders, a no-op when the key is absent (the source
then still returns Ok). The source re-parses the decision id string; the
pipeline reaches this point only with an id that already parsed in
`place_order`, so the parsed client id is passed directly. -/
def handle_partial_fills (orders : List (Nat × OrderExecution)) (client_id : Nat)
    (fds : List FillData) (now : Nat) : List (Nat × OrderExecution) :=
  updateAt client_id (fun oe => oe.applyFills fds now) orders

/-- `ExecutionGateway::execute_single_order` with the adapter response
passed in. The embedding assumes the "default" adapter is registered and
that the freshly minted v4 order id round-trips through Uuid parsing (both
hold whenever the adapter is called at all; an unregistered adapter errors
before any adapter invocation). Copies the adapter result into a fresh
ExecutionResult and, when partial fills are enabled and reported, applies
them to the active-order record. -/
def execute_single_order (cfg : GatewayConfig) (decision_id order_id : String)
    (client_id : Nat) (resp : Except TradingError AdapterResponse) (now : Nat)
    (orders : List (Nat × OrderExecution)) :
    Except TradingError ExecutionResult × List (Nat × OrderExecution) :=
  match resp with
  | .error e => (Except.error e, orders)
  | .ok adapter_result =>
      let execution_result :=
        { ExecutionResult.new decision_id order_id with
            status := adapter_result.status
            filled_quantity := adapter_result.filled_quantity
            average_price := adapter_result.average_price
            commission := adapter_result.commission
            filled_at := adapter_result.filled_at }
      let orders2 :=
        if cfg.enable_partial_fills = true ∧ 0 < adapter_result.partial_fills.length then
          handle_partial_fills orders client_id adapter_result.partial_fills now
        else orders
      (Except.ok execution_result, orders2)

/-- The attempt loop of `ExecutionGateway::execute_order_with_retry`
(`for attempt in 0..=max_retries` in the source), with the breaker admission
answer and the adapter response of each attempt passed as per-attempt
oracles, threading the active-order map, and instrumented with the number of
adapter placeOrder invocations performed (the last component, one per
`execute_single_order` call). `fuel` counts the remaining iterations; the
loop is entered with fuel = max_retries + 1, and the fuel-exhausted branch
is the unreachable fallthrough error after the source loop. The breaker
recording calls mutate only breaker state, which the oracle abstracts (the
breaker itself is modelled above); the backoff sleep of the failure path has
no further observable effect here and is dropped. -/
def execute_retry_loop (cfg : GatewayConfig) (decision_id order_id : String)
    (client_id : Nat) (isOpenAt : Nat → Bool)
    (adapterAt : Nat → Except TradingError AdapterResponse) (elapsed_ms now : Nat) :
    Nat → Nat → List (Nat × OrderExecution) →
      (Except TradingError ExecutionResult × List (Nat × OrderExecution)) × Nat
  | 0, _, orders =>
      ((Except.error (TradingError.ExecutionError "Max retries exceeded"), orders), 0)
  | fuel + 1, attempt, orders =>
      if isOpenAt attempt then
        ((Except.error (TradingError.ExecutionError
            "Circuit breaker open for exchange: default"), orders), 0)
      else
        match execute_single_order cfg decision_id order_id client_id
            (adapterAt attempt) now orders with
        | (Except.ok res, orders2) =>
            ((Except.ok { res with
                execution_time_ms := some elapsed_ms
                retry_count := attempt }, orders2), 1)
        | (Except.error e, orders2) =>
            if attempt = cfg.max_retries then
              ((Except.error e, orders2), 1)
            else
              let rest := execute_retry_loop cfg decision_id order_id client_id isOpenAt
                adapterAt elapsed_ms now fuel (attempt + 1) orders2
              ((rest.1.1, rest.1.2), rest.2 + 1)

/-- `ExecutionGateway::execute_order_with_retry`: the loop entered at
attempt 0 with max_retries + 1 iterations available. -/
def execute_order_with_retry (cfg : GatewayConfig) (decision_id order_id : String)
    (client_id : Nat) (isOpenAt : Nat → Bool)
    (adapterAt : Nat → Except TradingError AdapterResponse) (elapsed_ms now : Nat)
    (orders : List (Nat × OrderExecution)) :
    (Except TradingError ExecutionResult × List (Nat × OrderExecution)) × Nat :=
  execute_retry_loop cfg decision_id order_id client_id isOpenAt adapterAt elapsed_ms now
    (cfg.max_retries + 1) 0 orders

/-- The status projection of gateway.rs (`update_order_status` and
`get_order_status` share it; note Pending maps to Pending). -/
def statusToExec : OrderStatus → OrderExecutionStatus
  | .Pending => OrderExecutionStatus.Pending
  | .PartiallyFilled => OrderExecutionStatus.PartiallyFilled
  | .Filled => OrderExecutionStatus.Filled
  | .Cancelled => OrderExecutionStatus.Cancelled
  | .Rejected => OrderExecutionStatus.Rejected

/-- `ExecutionGateway::update_order_status`. -/
def update_order_status (client_id : Nat)
    (result : Except TradingError ExecutionResult) (now : Nat)
    (orders : List (Nat × OrderExecution)) : List (Nat × OrderExecution) :=
  updateAt client_id
    (fun oe =>
      { oe with
          status :=
            match result with
            | .ok exec_result => statusToExec exec_result.status
            | .error _ => OrderExecutionStatus.Failed
          updated_at := now })
    orders

/-- `ExecutionGateway::get_order_result`: the source comments that this
would typically query a database or cache and, for now, returns a fresh
placeholder result. -/
def get_order_result (order_id : String) : Except TradingError ExecutionResult :=
  Except.ok (ExecutionResult.new "placeholder" order_id)

/-- The OrderExecution record `place_order` creates before the submission
loop. -/
def initial_order_execution (order_id : String) (client_id : Nat) (now : Nat) :
    OrderExecution :=
  { order_id := order_id
    client_id := client_id
    exchange := "default"
    status := OrderExecutionStatus.Pending
    created_at := now
    updated_at := now
    retry_count := 0
    partial_fills := []
    total_filled := 0
    average_price := none }

/-- `ExecutionGateway::place_order`: parse the decision id (failure returns
the Invalid-decision-ID ExecutionError; the source appends the parse error
detail to the message), return the placeholder result on a dedup hit,
otherwise mint the order id, insert the dedup entry and the fresh
OrderExecution, run the submission loop, and fold the result into the order
status. Returns the result, the final state and the ghost adapter
invocation count. -/
def place_order (cfg : GatewayConfig) (parse : String → Option Nat)
    (fresh_order_id : String) (isOpenAt : Nat → Bool)
    (adapterAt : Nat → Except TradingError AdapterResponse)
    (elapsed_ms now : Nat) (decision_id : String) (st : GatewayState) :
    (Except TradingError ExecutionResult × GatewayState) × Nat :=
  match parse decision_id with
  | none => ((Except.error (TradingError.ExecutionError "Invalid decision ID"), st), 0)
  | some client_id =>
    match st.order_deduplication.lookup client_id with
    | some existing_order_id => ((get_order_result existing_order_id, st), 0)
    | none =>
      let order_id := fresh_order_id
      let dedup2 := (client_id, order_id) :: st.order_deduplication
      let orders1 :=
        (client_id, initial_order_execution order_id client_id now) :: st.active_orders
      let rr := execute_order_with_retry cfg decision_id order_id client_id isOpenAt
        adapterAt elapsed_ms now orders1
      let orders2 := update_order_status client_id rr.1.1 now rr.1.2
      ((rr.1.1, { active_orders := orders2, order_deduplication := dedup2 }), rr.2)

/-- `ExecutionGateway::get_order_status` with the adapter answer passed in:
the source resolves the "default" adapter and delegates to it, then projects
the status; the gateway state is in scope through &self (active orders and
the order manager) but is never consulted, which the unused parameter
mirrors. -/
def get_order_status (st : GatewayState)
    (adapter_status : Except TradingError OrderStatus) :
    Except TradingError OrderExecutionStatus :=
  match adapter_status with
  | .error e => Except.error e
  | .ok s => Except.ok (statusToExec s)

/-! ## Claims about the pipeline -/

/-- A sample active-order record whose stored status is Cancelled. -/
def sampleCancelledExecution : OrderExecution :=
  { initial_order_execution "oid1" 7 0 with status := OrderExecutionStatus.Cancelled }

/-- C9 counterexample: the gateway holds a record for the order (stored
status Cancelled under client id 7, dedup entry present) yet the status
query returns the projection of the adapter answer — Pending maps to
Pending — instead of the stored status, and instead of the claimed
Pending → Submitted projection. -/
theorem status_query_ignores_lifecycle_counterexample :
    get_order_status ⟨[(7, sampleCancelledExecution)], [(7, "oid1")]⟩
        (Except.ok OrderStatus.Pending)
      = Except.ok OrderExecutionStatus.Pending ∧
    sampleCancelledExecution.status = OrderExecutionStatus.Cancelled ∧
    OrderExecutionStatus.Pending ≠ OrderExecutionStatus.Cancelled ∧
    statusToExec OrderStatus.Pending ≠ OrderExecutionStatus.Submitted := by
  refine ⟨rfl, rfl, by decide, by decide⟩

/-- C9 amended: a status query never consults the gateway's stored state —
the answer is the same for every state — and always projects the adapter
status, mapping Pending to Pending (not Submitted), PartiallyFilled to
PartiallyFilled, Filled to Filled, Cancelled to Cancelled, Rejected to
Rejected. -/
theorem status_query_adapter_only (st st2 : GatewayState)
    (adapter_status : Except TradingError OrderStatus) :
    get_order_status st adapter_status = get_order_status st2 adapter_status ∧
    statusToExec OrderStatus.Pending = OrderExecutionStatus.Pending ∧
    statusToExec OrderStatus.PartiallyFilled = OrderExecutionStatus.PartiallyFilled ∧
    statusToExec OrderStatus.Filled = OrderExecutionStatus.Filled ∧
    statusToExec OrderStatus.Cancelled = OrderExecutionStatus.Cancelled ∧
    statusToExec OrderStatus.Rejected = OrderExecutionStatus.Rejected :=
  ⟨rfl, rfl, rfl, rfl, rfl, rfl⟩

/-- C10: when the decision id fails Uuid parsing, place_order returns the
Invalid-decision-ID ExecutionError with zero adapter invocations and the
gateway state — dedup map and active orders — unchanged. -/
theorem invalid_decision_id_no_side_effects
    (cfg : GatewayConfig) (parse : String → Option Nat) (fresh_order_id : String)
    (isOpenAt : Nat → Bool) (adapterAt : Nat → Except TradingError AdapterResponse)
    (elapsed_ms now : Nat) (decision_id : String) (st : GatewayState)
    (hbad : parse decision_id = none) :
    place_order cfg parse fresh_order_id isOpenAt adapterAt elapsed_ms now decision_id st
      = ((Except.error (TradingError.ExecutionError "Invalid decision ID"), st), 0) := by
  simp [place_order, hbad]

/-- Witness: a parser that rejects everything, applied to a non-UUID id on
the empty gateway state. -/
theorem invalid_decision_id_no_side_effects_witness :
    place_order GatewayConfig.default (fun _ => none) "oid" (fun _ => false)
        (fun _ => Except.error (TradingError.ExecutionError "boom")) 0 0
        "not-a-uuid" ⟨[], []⟩
      = ((Except.error (TradingError.ExecutionError "Invalid decision ID"), ⟨[], []⟩), 0) :=
  invalid_decision_id_no_side_effects GatewayConfig.default (fun _ => none) "oid"
    (fun _ => false) (fun _ => Except.error (TradingError.ExecutionError "boom")) 0 0
    "not-a-uuid" ⟨[], []⟩ rfl

/-- C1 amended: on a duplicate call — the decision id parses to a client id
already present in the dedup map — place_order does not reconstruct the
original result: it returns Ok of the fresh placeholder
`ExecutionResult::new("placeholder", stored order id)` (default Pending
status, zero fills, no commission), leaves the state unchanged, and performs
no adapter invocation. Only the order id of the original result survives. -/
theorem duplicate_call_returns_placeholder
    (cfg : GatewayConfig) (parse : String → Option Nat) (fresh_order_id : String)
    (isOpenAt : Nat → Bool) (adapterAt : Nat → Except TradingError AdapterResponse)
    (elapsed_ms now : Nat) (decision_id : String) (st : GatewayState)
    (client_id : Nat) (existing_order_id : String)
    (hparse : parse decision_id = some client_id)
    (hdup : st.order_deduplication.lookup client_id = some existing_order_id) :
    place_order cfg parse fresh_order_id isOpenAt adapterAt elapsed_ms now decision_id st
      = ((Except.ok (ExecutionResult.new "placeholder" existing_order_id), st), 0) := by
  simp [place_order, hparse, hdup, get_order_result]

/-- The parse function of the concrete duplicate-call scenario: only the
string d parses, to client id 7. -/
def sampleParse : String → Option Nat :=
  fun s => if s = "d" then some 7 else none

/-- An adapter that always fills the whole quantity 1 at price 50000. -/
def sampleAdapterOk : Nat → Except TradingError AdapterResponse :=
  fun _ =>
    Except.ok
      { status := OrderStatus.Filled
        filled_quantity := 1
        average_price := some 50000
        commission := 0
        filled_at := some 20
        partial_fills := [] }

/-- The first submission of decision d on the empty gateway. -/
def firstCall : (Except TradingError ExecutionResult × GatewayState) × Nat :=
  place_order GatewayConfig.default sampleParse "oid1" (fun _ => false)
    sampleAdapterOk 3 10 "d" ⟨[], []⟩

/-- The second submission of the same decision d, on the state the first
call left behind. -/
def secondCall : (Except TradingError ExecutionResult × GatewayState) × Nat :=
  place_order GatewayConfig.default sampleParse "oid2" (fun _ => false)
    sampleAdapterOk 4 11 "d" firstCall.1.2

/-- C1 counterexample: the first call returns the filled result for decision
d; the repeat call returns the placeholder result (decision_id the literal
string placeholder, default Pending status, zero filled quantity) instead of
the result the original caller saw. -/
theorem duplicate_call_counterexample :
    firstCall.1.1
      = Except.ok
          { ExecutionResult.new "d" "oid1" with
              status := OrderStatus.Filled
              filled_quantity := 1
              average_price := some 50000
              commission := 0
              filled_at := some 20
              execution_time_ms := some 3 } ∧
    secondCall.1.1 = Except.ok (ExecutionResult.new "placeholder" "oid1") ∧
    firstCall.1.1 ≠ secondCall.1.1 := by
  refine ⟨by decide, by decide, by decide⟩

/-- Witness for the duplicate-call theorem on a one-entry dedup map. -/
theorem duplicate_call_returns_placeholder_witness :
    place_order GatewayConfig.default sampleParse "oid9" (fun _ => false)
        sampleAdapterOk 4 11 "d" ⟨[], [(7, "oid1")]⟩
      = ((Except.ok (ExecutionResult.new "placeholder" "oid1"), ⟨[], [(7, "oid1")]⟩), 0) :=
  duplicate_call_returns_placeholder GatewayConfig.default sampleParse "oid9"
    (fun _ => false) sampleAdapterOk 4 11 "d" ⟨[], [(7, "oid1")]⟩ 7 "oid1"
    (by decide) (by decide)

/-- Helper: the loop performs at most `fuel` adapter invocations. -/
theorem execute_retry_loop_count_le (cfg : GatewayConfig) (decision_id order_id : String)
    (client_id : Nat) (isOpenAt : Nat → Bool)
    (adapterAt : Nat → Except TradingError AdapterResponse) (elapsed_ms now : Nat) :
    ∀ (fuel attempt : Nat) (orders : List (Nat × OrderExecution)),
      (execute_retry_loop cfg decision_id order_id client_id isOpenAt adapterAt
          elapsed_ms now fuel attempt orders).2 ≤ fuel := by
  intro fuel
  induction fuel with
  | zero =>
      intro attempt orders
      simp [execute_retry_loop]
  | succ n ih =>
      intro attempt orders
      rw [execute_retry_loop]
      by_cases hopen : isOpenAt attempt = true
      · simp [hopen]
      · simp only [hopen, if_false, Bool.false_eq_true]
        rcases hsingle : execute_single_order cfg decision_id order_id client_id
            (adapterAt attempt) now orders with ⟨res, orders2⟩
        cases res with
        | ok r => simp
        | error e =>
            by_cases hlast : attempt = cfg.max_retries
            · simp [hlast]
            · simp only [hlast, if_false]
              have := ih (attempt + 1) orders2
              omega

/-- Helper: with the breaker admitting every attempt and the adapter failing
every attempt, the loop runs to exhaustion: one invocation per remaining
iteration, the error of the final attempt returned, the order map untouched. -/
theorem execute_retry_loop_all_fail (cfg : GatewayConfig) (decision_id order_id : String)
    (client_id : Nat) (isOpenAt : Nat → Bool)
    (adapterAt : Nat → Except TradingError AdapterResponse) (elapsed_ms now : Nat)
    (errAt : Nat → TradingError)
    (hfail : ∀ k, adapterAt k = Except.error (errAt k))
    (hallow : ∀ k, isOpenAt k = false) :
    ∀ (fuel attempt : Nat) (orders : List (Nat × OrderExecution)),
      attempt + fuel = cfg.max_retries + 1 → 1 ≤ fuel →
      execute_retry_loop cfg decision_id order_id client_id isOpenAt adapterAt
          elapsed_ms now fuel attempt orders
        = ((Except.error (errAt cfg.max_retries), orders), fuel) := by
  intro fuel
  induction fuel with
  | zero =>
      intro attempt orders heq hfu
      omega
  | succ n ih =>
      intro attempt orders heq hfu
      rw [execute_retry_loop]
      rw [hallow attempt]
      simp only [Bool.false_eq_true, if_false]
      rw [hfail attempt]
      simp only [execute_single_order]
      by_cases hlast : attempt = cfg.max_retries
      · have hn : n = 0 := by omega
        subst hn
        simp [hlast]
      · simp only [hlast, if_false]
        rw [ih (attempt + 1) orders (by omega) (by omega)]

/-- The gateway default configuration with max_retries = 0. -/
def zeroRetryConfig : GatewayConfig :=
  { GatewayConfig.default with max_retries := 0 }

/-- C2 counterexample: with max_retries = 0 one call still performs 1
adapter invocation, exceeding the claimed bound of maxAttempts =
max_retries = 0 (the loop runs attempts 0..=max_retries inclusive). -/
theorem retry_invocation_bound_counterexample :
    (execute_order_with_retry zeroRetryConfig "d" "oid" 7 (fun _ => false)
        sampleAdapterOk 3 10 []).2 = 1 ∧
    ¬ ((execute_order_with_retry zeroRetryConfig "d" "oid" 7 (fun _ => false)
        sampleAdapterOk 3 10 []).2 ≤ zeroRetryConfig.max_retries) := by
  refine ⟨by decide, by decide⟩

/-- C2 amended: the number of adapter placeOrder invocations of one
submission is at most max_retries + 1 (the loop runs attempts
0..=max_retries inclusive, so the claimed bound max_retries is off by one),
and should_retry(k) holds exactly when k < max_retries. -/
theorem retry_invocation_bound (cfg : GatewayConfig) (decision_id order_id : String)
    (client_id : Nat) (isOpenAt : Nat → Bool)
    (adapterAt : Nat → Except TradingError AdapterResponse) (elapsed_ms now : Nat)
    (orders : List (Nat × OrderExecution)) (r : RetryLogic) (k : Nat) :
    (execute_order_with_retry cfg decision_id order_id client_id isOpenAt adapterAt
        elapsed_ms now orders).2 ≤ cfg.max_retries + 1 ∧
    (r.should_retry k = true ↔ k < r.max_retries) := by
  constructor
  · exact execute_retry_loop_count_le cfg decision_id order_id client_id isOpenAt
      adapterAt elapsed_ms now (cfg.max_retries + 1) 0 orders
  · simp [RetryLogic.should_retry]

/-- The terminal-vocabulary venue error of the NoRetry scenario. -/
def insufficientFundsError : TradingError :=
  TradingError.ExecutionError "insufficient funds"

/-- An adapter that fails every attempt with the NoRetry-classified error. -/
def alwaysInsufficientFunds : Nat → Except TradingError AdapterResponse :=
  fun _ => Except.error insufficientFundsError

/-- The gateway default configuration with max_retries = 2. -/
def twoRetryConfig : GatewayConfig :=
  { GatewayConfig.default with max_retries := 2 }

/-- C3 counterexample: the venue error "insufficient funds" classifies as
NoRetry, yet with max_retries = 2 the submission loop performs 3 adapter
invocations for it before returning the error — the claim requires an
immediate return with no further invocations after the first. -/
theorem noretry_error_still_retried_counterexample :
    determine_retry_policy insufficientFundsError = RetryPolicy.NoRetry ∧
    (execute_order_with_retry twoRetryConfig "d" "oid" 7 (fun _ => false)
        alwaysInsufficientFunds 3 10 []).2 = 3 ∧
    (execute_order_with_retry twoRetryConfig "d" "oid" 7 (fun _ => false)
        alwaysInsufficientFunds 3 10 []).1.1 = Except.error insufficientFundsError := by
  refine ⟨by decide, by decide, by decide⟩

/-- C3 amended: determine_retry_policy does classify the terminal vocabulary
as NoRetry (venue ExecutionError messages insufficient funds / invalid order
/ market closed, risk-limit errors, serialization errors), but the
submission loop never consults it: with the breaker admitting every attempt
and the adapter failing every attempt with ANY errors — NoRetry-classified
ones included — the loop performs max_retries + 1 adapter invocations and
returns the error of the last attempt. -/
theorem noretry_classification_ignored_by_loop (cfg : GatewayConfig)
    (decision_id order_id : String) (client_id : Nat) (isOpenAt : Nat → Bool)
    (adapterAt : Nat → Except TradingError AdapterResponse) (elapsed_ms now : Nat)
    (orders : List (Nat × OrderExecution)) (errAt : Nat → TradingError)
    (lim s : String)
    (hfail : ∀ k, adapterAt k = Except.error (errAt k))
    (hallow : ∀ k, isOpenAt k = false) :
    determine_retry_policy (TradingError.ExecutionError "insufficient funds")
        = RetryPolicy.NoRetry ∧
    determine_retry_policy (TradingError.ExecutionError "invalid order")
        = RetryPolicy.NoRetry ∧
    determine_retry_policy (TradingError.ExecutionError "market closed")
        = RetryPolicy.NoRetry ∧
    determine_retry_policy (TradingError.RiskLimitError lim) = RetryPolicy.NoRetry ∧
    determine_retry_policy (TradingError.SerializationError s) = RetryPolicy.NoRetry ∧
    execute_order_with_retry cfg decision_id order_id client_id isOpenAt adapterAt
        elapsed_ms now orders
      = ((Except.error (errAt cfg.max_retries), orders), cfg.max_retries + 1) := by
  refine ⟨by decide, by decide, by decide, rfl, rfl, ?_⟩
  exact execute_retry_loop_all_fail cfg decision_id order_id client_id isOpenAt
    adapterAt elapsed_ms now errAt hfail hallow (cfg.max_retries + 1) 0 orders
    (by omega) (by omega)

/-- Witness: the NoRetry-classified insufficient-funds adapter with
max_retries = 2 yields 3 invocations and surfaces that error. -/
theorem noretry_classification_ignored_witness :
    determine_retry_policy (TradingError.ExecutionError "insufficient funds")
        = RetryPolicy.NoRetry ∧
    determine_retry_policy (TradingError.ExecutionError "invalid order")
        = RetryPolicy.NoRetry ∧
    determine_retry_policy (TradingError.ExecutionError "market closed")
        = RetryPolicy.NoRetry ∧
    determine_retry_policy (TradingError.RiskLimitError "limit") = RetryPolicy.NoRetry ∧
    determine_retry_policy (TradingError.SerializationError "bad json")
        = RetryPolicy.NoRetry ∧
    execute_order_with_retry twoRetryConfig "d" "oid" 7 (fun _ => false)
        alwaysInsufficientFunds 3 10 []
      = ((Except.error insufficientFundsError, []), 3) :=
  noretry_classification_ignored_by_loop twoRetryConfig "d" "oid" 7 (fun _ => false)
    alwaysInsufficientFunds 3 10 [] (fun _ => insufficientFundsError) "limit" "bad json"
    (fun _ => rfl) (fun _ => rfl)

/-- Appending one fill adds its quantity to the quantity sum. -/
theorem sumQuantities_append (l : List PartialFill) (pf : PartialFill) :
    sumQuantities (l ++ [pf]) = sumQuantities l + pf.quantity := by
  simp [sumQuantities]

/-- The fill-conservation invariant of an order record: total_filled is the
sum of the recorded quantities, average_price is set exactly when a fill is
recorded and then equals the volume-weighted average, and all recorded
quantities are positive. -/
def FillsInvariant (oe : OrderExecution) : Prop :=
  oe.total_filled = sumQuantities oe.partial_fills ∧
  (oe.average_price = none ↔ oe.partial_fills = []) ∧
  (oe.partial_fills ≠ [] →
    oe.average_price
      = some (sumWeighted oe.partial_fills / sumQuantities oe.partial_fills)) ∧
  (∀ pf ∈ oe.partial_fills, 0 < pf.quantity)

/-- One applyFill step preserves the invariant when the reported quantity is
positive. -/
theorem applyFill_invariant (oe : OrderExecution) (fd : FillData) (now : Nat)
    (hq : 0 < fd.quantity.getD 0) (hinv : FillsInvariant oe) :
    FillsInvariant (oe.applyFill fd now) := by
  obtain ⟨htot, hiff, _havg, hpos⟩ := hinv
  have hqpf : (mkPartialFill fd now).quantity ≠ 0 := ne_of_gt hq
  cases hap : oe.average_price with
  | none =>
      have hempty : oe.partial_fills = [] := hiff.mp hap
      have hnew : oe.applyFill fd now
          = { oe with
              partial_fills := [mkPartialFill fd now]
              total_filled := oe.total_filled + (mkPartialFill fd now).quantity
              average_price := some (mkPartialFill fd now).price } := by
        simp [OrderExecution.applyFill, hap, hempty]
      rw [hnew]
      refine ⟨?_, by simp, ?_, ?_⟩
      · show oe.total_filled + (mkPartialFill fd now).quantity
            = sumQuantities [mkPartialFill fd now]
        rw [htot, hempty]
        simp [sumQuantities]
      · intro _
        show some (mkPartialFill fd now).price
            = some (sumWeighted [mkPartialFill fd now] / sumQuantities [mkPartialFill fd now])
        have hw : sumWeighted [mkPartialFill fd now]
            = (mkPartialFill fd now).quantity * (mkPartialFill fd now).price := by
          simp [sumWeighted]
        have hq2 : sumQuantities [mkPartialFill fd now] = (mkPartialFill fd now).quantity := by
          simp [sumQuantities]
        rw [hw, hq2, mul_div_cancel_left₀ _ hqpf]
      · intro pf hpf
        simp only [List.mem_singleton] at hpf
        rw [hpf]
        exact hq
  | some a =>
      have hnew : oe.applyFill fd now
          = { oe with
              partial_fills := oe.partial_fills ++ [mkPartialFill fd now]
              total_filled := oe.total_filled + (mkPartialFill fd now).quantity
              average_price := some (sumWeighted (oe.partial_fills ++ [mkPartialFill fd now])
                  / sumQuantities (oe.partial_fills ++ [mkPartialFill fd now])) } := by
        simp [OrderExecution.applyFill, hap]
      rw [hnew]
      refine ⟨?_, by simp, fun _ => rfl, ?_⟩
      · show oe.total_filled + (mkPartialFill fd now).quantity
            = sumQuantities (oe.partial_fills ++ [mkPartialFill fd now])
        rw [sumQuantities_append, htot]
      · intro pf hpf
        rcases List.mem_append.mp hpf with h | h
        · exact hpos pf h
        · simp only [List.mem_singleton] at h
          rw [h]
          exact hq

/-- The per-fill fold of one handle_partial_fills call preserves the
invariant. -/
theorem foldl_applyFill_invariant (fds : List FillData) :
    ∀ (oe : OrderExecution) (now : Nat), (∀ fd ∈ fds, 0 < fd.quantity.getD 0) →
      FillsInvariant oe →
      FillsInvariant (fds.foldl (fun o fd => o.applyFill fd now) oe) := by
  induction fds with
  | nil =>
      intro oe now _ hinv
      simpa using hinv
  | cons fd rest ih =>
      intro oe now hq hinv
      simp only [List.foldl_cons]
      exact ih (oe.applyFill fd now) now (fun f hf => hq f (List.mem_cons_of_mem _ hf))
        (applyFill_invariant oe fd now (hq fd (List.mem_cons_self _ _)) hinv)

/-- handle_partial_fills on one record preserves the invariant (updated_at
does not appear in the invariant). -/
theorem applyFills_invariant (oe : OrderExecution) (fds : List FillData) (now : Nat)
    (hq : ∀ fd ∈ fds, 0 < fd.quantity.getD 0) (hinv : FillsInvariant oe) :
    FillsInvariant (oe.applyFills fds now) :=
  foldl_applyFill_invariant fds oe now hq hinv

/-- A sequence of partial-fill batch applications, each batch being the fill
list of one adapter response together with its wall-clock stamp, as the
pipeline performs across attempts. -/
def applyFillBatches (oe : OrderExecution) (batches : List (List FillData × Nat)) :
    OrderExecution :=
  batches.foldl (fun o b => o.applyFills b.1 b.2) oe

/-- Any sequence of batch applications preserves the invariant. -/
theorem applyFillBatches_invariant (batches : List (List FillData × Nat)) :
    ∀ (oe : OrderExecution), (∀ b ∈ batches, ∀ fd ∈ b.1, 0 < fd.quantity.getD 0) →
      FillsInvariant oe → FillsInvariant (applyFillBatches oe batches) := by
  induction batches with
  | nil =>
      intro oe _ hinv
      simpa [applyFillBatches] using hinv
  | cons b rest ih =>
      intro oe hq hinv
      simp only [applyFillBatches, List.foldl_cons]
      exact ih (oe.applyFills b.1 b.2) (fun b2 hb2 => hq b2 (List.mem_cons_of_mem _ hb2))
        (applyFills_invariant oe b.1 b.2 (hq b (List.mem_cons_self _ _)) hinv)

/-- C6: starting from the freshly created order record, after any sequence
of partial-fill batch applications whose reported quantities are positive
(per the data model every fill has qty > 0), total_filled equals the sum of
the recorded fill quantities, and whenever at least one fill is recorded
average_price equals sum(qty * price) / sum(qty) over all recorded fills. -/
theorem fill_conservation (order_id : String) (client_id now0 : Nat)
    (batches : List (List FillData × Nat))
    (hq : ∀ b ∈ batches, ∀ fd ∈ b.1, 0 < fd.quantity.getD 0) :
    (applyFillBatches (initial_order_execution order_id client_id now0) batches).total_filled
      = sumQuantities
          (applyFillBatches (initial_order_execution order_id client_id now0) batches).partial_fills ∧
    ((applyFillBatches (initial_order_execution order_id client_id now0) batches).partial_fills ≠ [] →
      (applyFillBatches (initial_order_execution order_id client_id now0) batches).average_price
        = some (sumWeighted
              (applyFillBatches (initial_order_execution order_id client_id now0) batches).partial_fills
            / sumQuantities
              (applyFillBatches (initial_order_execution order_id client_id now0) batches).partial_fills)) := by
  have hinv0 : FillsInvariant (initial_order_execution order_id client_id now0) := by
    refine ⟨rfl, by simp [initial_order_execution], by simp [initial_order_execution],
      by simp [initial_order_execution]⟩
  have h := applyFillBatches_invariant batches (initial_order_execution order_id client_id now0)
    hq hinv0
  exact ⟨h.1, h.2.2.1⟩

/-- The fill of the concrete partial-fill scenario: id F1, quantity 1,
price 10, no commission. -/
def witnessFill : FillData :=
  { fill_id := some "F1", quantity := some 1, price := some 10, commission := some 0 }

/-- Witness for fill conservation: one batch with one fill of quantity 1. -/
theorem fill_conservation_witness :
    (applyFillBatches (initial_order_execution "oid" 7 0) [([witnessFill], 5)]).total_filled
      = sumQuantities
          (applyFillBatches (initial_order_execution "oid" 7 0) [([witnessFill], 5)]).partial_fills ∧
    ((applyFillBatches (initial_order_execution "oid" 7 0) [([witnessFill], 5)]).partial_fills ≠ [] →
      (applyFillBatches (initial_order_execution "oid" 7 0) [([witnessFill], 5)]).average_price
        = some (sumWeighted
              (applyFillBatches (initial_order_execution "oid" 7 0) [([witnessFill], 5)]).partial_fills
            / sumQuantities
              (applyFillBatches (initial_order_execution "oid" 7 0) [([witnessFill], 5)]).partial_fills)) :=
  fill_conservation "oid" 7 0 [([witnessFill], 5)]
    (by
      intro b hb fd hfd
      simp only [List.mem_singleton] at hb
      subst hb
      simp only [List.mem_singleton] at hfd
      subst hfd
      norm_num [witnessFill])

/-- The record after reporting fill F1 once. -/
def oeAfterOne : OrderExecution :=
  (initial_order_execution "oid" 7 0).applyFills [witnessFill] 5

/-- The record after reporting the same fill F1 a second time. -/
def oeAfterDup : OrderExecution :=
  oeAfterOne.applyFills [witnessFill] 6

/-- C7 counterexample: fill id F1 is already recorded, yet re-reporting it
appends a second F1 entry and doubles total_filled — the claim requires the
duplicate to be discarded with partial_fills and total_filled unchanged. -/
theorem duplicate_fill_not_discarded_counterexample :
    (oeAfterOne.partial_fills.map fun f => f.fill_id) = ["F1"] ∧
    oeAfterOne.total_filled = 1 ∧
    (oeAfterDup.partial_fills.map fun f => f.fill_id) = ["F1", "F1"] ∧
    oeAfterDup.total_filled = 2 := by
  refine ⟨?_, ?_, ?_, ?_⟩ <;>
    norm_num [oeAfterOne, oeAfterDup, OrderExecution.applyFills, OrderExecution.applyFill,
      mkPartialFill, witnessFill, initial_order_execution]

/-- C7 amended: fill application has no fill-level idempotency: even when
the reported fill id is already present in partial_fills, applyFill appends
the fill again and adds its quantity to total_filled. -/
theorem duplicate_fill_appended (oe : OrderExecution) (fd : FillData) (now : Nat)
    (hdup : (mkPartialFill fd now).fill_id ∈ oe.partial_fills.map fun f => f.fill_id) :
    (oe.applyFill fd now).partial_fills = oe.partial_fills ++ [mkPartialFill fd now] ∧
    (oe.applyFill fd now).total_filled
      = oe.total_filled + (mkPartialFill fd now).quantity :=
  ⟨rfl, rfl⟩

/-- Witness: applying F1 on the record that already holds F1. -/
theorem duplicate_fill_appended_witness :
    (oeAfterOne.applyFill witnessFill 6).partial_fills
      = oeAfterOne.partial_fills ++ [mkPartialFill witnessFill 6] ∧
    (oeAfterOne.applyFill witnessFill 6).total_filled
      = oeAfterOne.total_filled + (mkPartialFill witnessFill 6).quantity :=
  duplicate_fill_appended oeAfterOne witnessFill 6 (by decide)
